import Mathlib

/-!
Shallow embedding of the NAV extraction/validation core of the repository
(`pdfService`: `extractNAVData`, `extractBreakdown`, `validateNAVData`).

Modelling conventions:
* Strings are Lean `String`s, processed as `List Char`.
* JavaScript numbers are modelled as exact rationals (`ℚ`), matching the
  spec's description of the fields as decimal quantities.  IEEE-754
  rounding is not modelled; in particular division by zero follows the
  Lean convention `q / 0 = 0` (the JS `NaN`/`Infinity` values have no
  counterpart in `ℚ`), so theorems about the division-based consistency
  warning carry positivity hypotheses where the distinction could matter.
* The regular expressions of the source are translated into explicit
  scanners with the same leftmost-match and greedy (maximal-munch with
  backtracking) semantics.  The JS `\s`, `\d`, `\w` classes are modelled
  on their ASCII range, and `toLowerCase` on ASCII letters, which agree
  with JS on all inputs used here.
* `parseFloat(x.replace(/,/g, ""))` is modelled by `parseNum`, which
  returns `none` exactly when JS would return `NaN` for the strings the
  number scanner can produce.
* Validation warning messages interpolate the discrepancy percentage
  (`toFixed(4)` formatting); the model keeps the exact rational payload
  instead of the rendered string.
* `rawText` (copied onto the record by `parsePDF`, never used by the
  extractor or validator) is omitted from the record.
-/

namespace DuckGoose

/-- JS whitespace class `\s`, restricted to its ASCII members
(space, tab, newline, carriage return, vertical tab, form feed). -/
def jsSpace (c : Char) : Bool :=
  c == ' ' || c == '\t' || c == '\n' || c == '\r' || c.toNat == 11 || c.toNat == 12

/-- Character class `[\d,]` of the currency pattern. -/
def digitComma (c : Char) : Bool :=
  c.isDigit || c == ','

/-- Character class `[\$£€]` of the currency pattern. -/
def isCurrencySym (c : Char) : Bool :=
  c == '$' || c == '£' || c == '€'

/-- Match the pattern `[\$£€]?[\s]*([\d,]+\.?\d*)` at the start of `cs`.
Returns the length of the whole match together with the captured group.
All three quantified pieces are greedy; since the classes are disjoint
from what follows them, maximal munch needs no backtracking here. -/
def matchNumAt (cs : List Char) : Option (Nat × List Char) :=
  let cur : Nat × List Char :=
    match cs with
    | c :: t => if isCurrencySym c then (1, t) else (0, cs)
    | [] => (0, [])
  let sp := cur.2.takeWhile jsSpace
  let cs2 := cur.2.drop sp.length
  let run := cs2.takeWhile digitComma
  if run.isEmpty then none
  else
    match cs2.drop run.length with
    | '.' :: t3 =>
      let frac := t3.takeWhile Char.isDigit
      some (cur.1 + sp.length + run.length + 1 + frac.length, run ++ '.' :: frac)
    | _ => some (cur.1 + sp.length + run.length, run)

/-- Numeric value of a list of decimal digits. -/
def digitsVal (l : List Char) : ℚ :=
  ((l.foldl (fun n c => n * 10 + (c.toNat - 48)) 0 : Nat) : ℚ)

/-- Model of `parseFloat(group.replace(/,/g, ""))` on a captured group of
shape `[\d,]+\.?\d*`: strip the commas, then read `digits* ('.' digits*)?`;
`none` models the `NaN` result (no digits at all). -/
def parseNum (s : List Char) : Option ℚ :=
  let t := s.filter (fun c => !(c == ','))
  let ip := t.takeWhile Char.isDigit
  match t.drop ip.length with
  | [] => if ip.isEmpty then none else some (digitsVal ip)
  | '.' :: fp =>
    if ip.isEmpty && fp.isEmpty then none
    else some (digitsVal ip + digitsVal fp / (10 ^ fp.length : ℚ))
  | _ => none

/-- The harvesting filter `!isNaN(value) && value > 0` applied to a
captured group. -/
def keepNum (g : List Char) : Option ℚ :=
  match parseNum g with
  | some v => if 0 < v then some v else none
  | none => none

/-- Global scan of `currencyPattern.exec`: repeatedly find the leftmost
match, collect its (positive, parseable) value, and resume after the
match.  `fuel` bounds the recursion; every step consumes at least one
character, so `fuel = cs.length` is always sufficient. -/
def scanNums : Nat → List Char → List ℚ
  | 0, _ => []
  | _ + 1, [] => []
  | fuel + 1, c :: t =>
    match matchNumAt (c :: t) with
    | some (n, g) =>
      match keepNum g with
      | some v => v :: scanNums fuel ((c :: t).drop n)
      | none => scanNums fuel ((c :: t).drop n)
    | none => scanNums fuel t

/-- All positive monetary tokens of the text, in document order
(the `numbers` array of `extractNAVData`). -/
def harvestNumbers (text : String) : List ℚ :=
  scanNums text.data.length text.data

/-- Insert into a descending-ordered list. -/
def insertDesc (x : ℚ) : List ℚ → List ℚ
  | [] => [x]
  | y :: t => if y ≤ x then x :: y :: t else y :: insertDesc x t

/-- `numbers.sort((a, b) => b - a)`: sort descending.  The comparator is a
total preorder on the values, so any algorithm yields the same value
sequence; insertion sort is used here. -/
def sortDesc (l : List ℚ) : List ℚ :=
  l.foldr insertDesc []

/-- JS `x || d` on numbers (in this code path `x` is never `NaN`):
`d` exactly when `x` is the falsy number `0`. -/
def jsOr (x d : ℚ) : ℚ :=
  if x = 0 then d else x

/-- JS `String.prototype.trim` (ASCII whitespace). -/
def trimChars (l : List Char) : List Char :=
  ((l.dropWhile jsSpace).reverse.dropWhile jsSpace).reverse

/-- JS `text.split("\n")`. -/
def splitNl : List Char → List (List Char)
  | [] => [[]]
  | c :: t =>
    if c = '\n' then [] :: splitNl t
    else
      match splitNl t with
      | l :: ls => (c :: l) :: ls
      | [] => [[c]]

/-- `needle` occurs at the start of `hay`. -/
def leadEq : List Char → List Char → Bool
  | [], _ => true
  | _ :: _, [] => false
  | a :: as, b :: bs => a == b && leadEq as bs

/-- JS `hay.includes(needle)`: `needle` occurs contiguously in `hay`. -/
def hasSub (needle : List Char) : List Char → Bool
  | [] => needle.isEmpty
  | c :: t => leadEq needle (c :: t) || hasSub needle t

/-- JS `toLowerCase` (ASCII). -/
def lowerChars (l : List Char) : List Char :=
  l.map Char.toLower

/-- Strip a literal pattern case-insensitively from the front of `cs`
(the `/i` flag on the fund-name patterns). -/
def dropCI : List Char → List Char → Option (List Char)
  | [], cs => some cs
  | _ :: _, [] => none
  | p :: ps, c :: t => if Char.toLower c == Char.toLower p then dropCI ps t else none

/-- Character class `[:\s]`. -/
def colonSpace (c : Char) : Bool :=
  c == ':' || jsSpace c

/-- Character class `[^\n\r]`. -/
def notNl (c : Char) : Bool :=
  !(c == '\n' || c == '\r')

/-- Backtracking tail of the label pattern: after `fund\s+name`, match
`[:\s]+([^\n\r]+)` against `r2`.  The separator is greedy, so the longest
munch length `k` (at most the maximal run, at least `1`) whose remainder
starts with a non-newline character wins; the capture is then the greedy
`[^\n\r]+`. -/
def labelTailGo (r2 : List Char) : Nat → Option (List Char)
  | 0 => none
  | k + 1 =>
    match r2.drop (k + 1) with
    | c :: t => if notNl c then some ((c :: t).takeWhile notNl) else labelTailGo r2 k
    | [] => labelTailGo r2 k

/-- Match `fund\s+name[:\s]+([^\n\r]+)` (case-insensitive) at the start of
`cs`, returning the captured group. -/
def matchFundLabelAt (cs : List Char) : Option (List Char) :=
  match dropCI "fund".data cs with
  | none => none
  | some r1 =>
    let sp := r1.takeWhile jsSpace
    if sp.isEmpty then none
    else
      match dropCI "name".data (r1.drop sp.length) with
      | none => none
      | some r2 => labelTailGo r2 ((r2.takeWhile colonSpace).length)

/-- Leftmost-match search: try the single-position matcher at every
position, left to right. -/
def findPat (f : List Char → Option (List Char)) : List Char → Option (List Char)
  | [] => none
  | c :: t =>
    match f (c :: t) with
    | some m => some m
    | none => findPat f t

/-- ASCII letter: what `[A-Z]` matches under the `/i` flag. -/
def isAsciiLetter (c : Char) : Bool :=
  (65 ≤ c.toNat && c.toNat ≤ 90) || (97 ≤ c.toNat && c.toNat ≤ 122)

/-- Character class `[A-Z\s&]` under `/i`. -/
def heurClass (c : Char) : Bool :=
  isAsciiLetter c || jsSpace c || c == '&'

/-- Backtracking for `[A-Z\s&]+` followed by a literal suffix: try munch
lengths from `j` down to `1`, keeping the first (longest) at which the
suffix matches case-insensitively. -/
def heurGo (sfx : List Char) (c : Char) (t : List Char) : Nat → Option (List Char)
  | 0 => none
  | j + 1 =>
    match dropCI sfx (t.drop (j + 1)) with
    | some _ => some (c :: t.take (j + 1 + sfx.length))
    | none => heurGo sfx c t j

/-- Match `([A-Z][A-Z\s&]+sfx)` (case-insensitive) at the start of `cs`. -/
def matchHeurAt (sfx : List Char) (cs : List Char) : Option (List Char) :=
  match cs with
  | [] => none
  | c :: t =>
    if isAsciiLetter c then heurGo sfx c t ((t.takeWhile heurClass).length)
    else none

/-- Leftmost match of the label pattern `/fund\s+name[:\s]+([^\n\r]+)/i`. -/
def findFundLabel (cs : List Char) : Option (List Char) :=
  findPat matchFundLabelAt cs

/-- Leftmost match of a heuristic pattern `/([A-Z][A-Z\s&]+sfx)/i`. -/
def findHeur (sfx : List Char) (cs : List Char) : Option (List Char) :=
  findPat (matchHeurAt sfx) cs

/-- Fund-name extraction: ordered pattern list (label, capitalized+fund,
capitalized+trust); the first pattern that matches anywhere wins and its
capture is trimmed; otherwise the empty-string sentinel. -/
def extractFundName (text : String) : String :=
  match findFundLabel text.data with
  | some cap => String.mk (trimChars cap)
  | none =>
    match findHeur "fund".data text.data with
    | some cap => String.mk (trimChars cap)
    | none =>
      match findHeur "trust".data text.data with
      | some cap => String.mk (trimChars cap)
      | none => ""

/-- Character class `\w`. -/
def isWordChar (c : Char) : Bool :=
  isAsciiLetter c || c.isDigit || c == '_'

/-- Match exactly `n` digits at the start of `cs` (`\d{n}`). -/
def digitsTake (n : Nat) (cs : List Char) : Option (List Char × List Char) :=
  let pre := cs.take n
  if pre.length == n && pre.all Char.isDigit then some (pre, cs.drop n) else none

/-- First alternative that succeeds, in order. -/
def firstSome {α β : Type} : List α → (α → Option β) → Option β
  | [], _ => none
  | a :: t, f =>
    match f a with
    | some b => some b
    | none => firstSome t f

/-- The greedy alternatives of `\d{1,2}`: two digits first, then one. -/
def d12opts (cs : List Char) : List (List Char × List Char) :=
  (match digitsTake 2 cs with | some p => [p] | none => []) ++
    (match digitsTake 1 cs with | some p => [p] | none => [])

/-- Match `(\d{1,2}\/\d{1,2}\/\d{4})` at the start of `cs`. -/
def matchDate1At (cs : List Char) : Option (List Char) :=
  firstSome (d12opts cs) fun p =>
    match p.2 with
    | '/' :: r2 =>
      firstSome (d12opts r2) fun q =>
        match q.2 with
        | '/' :: r4 =>
          match digitsTake 4 r4 with
          | some y => some (p.1 ++ '/' :: (q.1 ++ '/' :: y.1))
          | none => none
        | _ => none
    | _ => none

/-- Match `(\d{4}-\d{2}-\d{2})` at the start of `cs`. -/
def matchDate2At (cs : List Char) : Option (List Char) :=
  match digitsTake 4 cs with
  | some y =>
    match y.2 with
    | '-' :: r2 =>
      match digitsTake 2 r2 with
      | some m =>
        match m.2 with
        | '-' :: r4 =>
          match digitsTake 2 r4 with
          | some d => some (y.1 ++ '-' :: (m.1 ++ '-' :: d.1))
          | none => none
        | _ => none
      | none => none
    | _ => none
  | none => none

/-- Match `(\w+\s+\d{1,2},?\s+\d{4})` at the start of `cs`.  The word,
space and digit classes are pairwise disjoint with what follows them, so
only `\d{1,2}` needs its two-then-one alternatives. -/
def matchDate3At (cs : List Char) : Option (List Char) :=
  let w := cs.takeWhile isWordChar
  if w.isEmpty then none
  else
    let r1 := cs.drop w.length
    let s1 := r1.takeWhile jsSpace
    if s1.isEmpty then none
    else
      firstSome (d12opts (r1.drop s1.length)) fun p =>
        let cm : List Char × List Char :=
          match p.2 with
          | ',' :: t => ([','], t)
          | t => ([], t)
        let s2 := cm.2.takeWhile jsSpace
        if s2.isEmpty then none
        else
          match digitsTake 4 (cm.2.drop s2.length) with
          | some y => some (w ++ s1 ++ p.1 ++ cm.1 ++ s2 ++ y.1)
          | none => none

/-- Date extraction: ordered pattern list, first pattern that matches
anywhere in the text wins; empty-string sentinel otherwise. -/
def extractDate (text : String) : String :=
  match findPat matchDate1At text.data with
  | some m => String.mk m
  | none =>
    match findPat matchDate2At text.data with
    | some m => String.mk m
    | none =>
      match findPat matchDate3At text.data with
      | some m => String.mk m
      | none => ""

/-- One `{description, amount}` breakdown entry. -/
structure BreakdownItem where
  description : String
  amount : ℚ
  deriving DecidableEq

/-- First match of the currency pattern inside a line, split as
(text before the match, captured group, text after the match). -/
def findNumSplit : List Char → Option (List Char × List Char × List Char)
  | [] => none
  | c :: t =>
    match matchNumAt (c :: t) with
    | some (n, g) => some ([], g, (c :: t).drop n)
    | none =>
      match findNumSplit t with
      | some (pre, g, suf) => some (c :: pre, g, suf)
      | none => none

/-- Per-line emission inside a section: first currency-pattern match gives
the amount; the description is the line with the whole match replaced by
the empty string, trimmed; the entry is pushed only when the description
is non-empty and the amount is not `NaN`. -/
def emitLine (line : List Char) : Option BreakdownItem :=
  match findNumSplit line with
  | none => none
  | some (pre, g, suf) =>
    match parseNum g with
    | none => none
    | some amount =>
      let description := trimChars (pre ++ suf)
      if description.isEmpty then none
      else some { description := String.mk description, amount := amount }

/-- A line containing one of the section keywords (checked on the
lowercased line). -/
def isTrigger (kws : List (List Char)) (line : List Char) : Bool :=
  kws.any fun k => hasSub k (lowerChars line)

/-- A line containing `total` or `summary` (checked on the lowercased
line). -/
def isStopLine (line : List Char) : Bool :=
  hasSub "total".data (lowerChars line) || hasSub "summary".data (lowerChars line)

/-- The line loop of `extractBreakdown`: keyword lines (re)enter the
section and are consumed; in-section lines are processed for emission and
then, if they contain `total`/`summary`, break the whole loop. -/
def breakdownLoop (kws : List (List Char)) : List (List Char) → Bool → List BreakdownItem
  | [], _ => []
  | line :: rest, inSection =>
    if isTrigger kws line then breakdownLoop kws rest true
    else if inSection then
      let emitted := match emitLine line with | some e => [e] | none => []
      if isStopLine line then emitted
      else emitted ++ breakdownLoop kws rest inSection
    else breakdownLoop kws rest inSection

/-- `extractBreakdown(text, type)` of the source. -/
def extractBreakdown (text : String) (ty : String) : List BreakdownItem :=
  let kws :=
    if ty = "asset" then ["assets".data, "investments".data, "holdings".data]
    else ["liabilities".data, "expenses".data, "fees".data]
  breakdownLoop kws (splitNl text.data) false

/-- The `NAVData` record produced by extraction (`rawText` omitted, see
the header). -/
structure FinancialRecord where
  fundName : String
  date : String
  totalAssets : ℚ
  totalLiabilities : ℚ
  netAssets : ℚ
  unitsOutstanding : ℚ
  navPerUnit : ℚ
  officialNav : ℚ
  assetBreakdown : List BreakdownItem
  liabilityBreakdown : List BreakdownItem
  deriving DecidableEq

/-- `extractNAVData` of the source, merged (as `parsePDF` does) over the
all-sentinel defaults. -/
def extractNAVData (text : String) : FinancialRecord :=
  let ns := sortDesc (harvestNumbers text)
  let base : FinancialRecord :=
    { fundName := extractFundName text
      date := extractDate text
      totalAssets := 0
      totalLiabilities := 0
      netAssets := 0
      unitsOutstanding := 0
      navPerUnit := 0
      officialNav := 0
      assetBreakdown := extractBreakdown text "asset"
      liabilityBreakdown := extractBreakdown text "liability" }
  if 4 ≤ ns.length then
    let totalAssets := ns.getD 0 0
    let totalLiabilities := jsOr (ns.getD 1 0) 0
    let netAssets := totalAssets - totalLiabilities
    let unitsOutstanding := jsOr (ns.getD 2 0) 1
    let navPerUnit := netAssets / unitsOutstanding
    let officialNav := jsOr (ns.getD 3 0) navPerUnit
    { base with
        totalAssets := totalAssets
        totalLiabilities := totalLiabilities
        netAssets := netAssets
        unitsOutstanding := unitsOutstanding
        navPerUnit := navPerUnit
        officialNav := officialNav }
  else base

/-- The validation result.  `warnings` keeps the numeric payload of each
warning message (the discrepancy percentage). -/
structure ValidationResult where
  isValid : Bool
  errors : List String
  warnings : List ℚ
  confidence : ℤ
  deriving DecidableEq

/-- `validateNAVData` of the source. -/
def validateNAVData (navData : FinancialRecord) : ValidationResult :=
  let errors :=
    (if navData.fundName = "" then ["Fund name not found"] else []) ++
      (if navData.date = "" then ["Date not found"] else []) ++
        (if navData.totalAssets ≤ 0 then ["Total assets must be greater than 0"] else []) ++
          (if navData.unitsOutstanding ≤ 0 then
            ["Units outstanding must be greater than 0"] else [])
  let calculatedNav := navData.netAssets / navData.unitsOutstanding
  let navDifference := |calculatedNav - navData.officialNav|
  let navPercentage := navDifference / navData.officialNav * 100
  let warnings := if navPercentage > 1 / 100 then [navPercentage] else []
  { isValid := errors.isEmpty
    errors := errors
    warnings := warnings
    confidence := max 0 (100 - (errors.length : ℤ) * 20 - (warnings.length : ℤ) * 5) }

/-- The all-sentinel record: what extraction yields when nothing matches. -/
def sentinelRecord : FinancialRecord :=
  { fundName := ""
    date := ""
    totalAssets := 0
    totalLiabilities := 0
    netAssets := 0
    unitsOutstanding := 0
    navPerUnit := 0
    officialNav := 0
    assetBreakdown := []
    liabilityBreakdown := [] }

/-- The spec's perturbed-NAV record: canonical assets/liabilities/units
with `officialNav` moved to `120.5`. -/
def navRecord1 : FinancialRecord :=
  { fundName := "Test Investment Fund"
    date := "2024-01-15"
    totalAssets := 1250000
    totalLiabilities := 50000
    netAssets := 1200000
    unitsOutstanding := 10000
    navPerUnit := 120
    officialNav := 241 / 2
    assetBreakdown := []
    liabilityBreakdown := [] }

/-- A document text whose four largest positive monetary tokens are the
canonical `1,250,000 / 50,000 / 10,000 / 120` (the date tokens all parse
to `1`). -/
def demo4Text : String :=
  "Fund Name: Test Fund\n0001-01-01\n1,250,000\n50,000\n10,000\n120"

/-- The record extracted from `demo4Text`. -/
def demo4Record : FinancialRecord :=
  { fundName := "Test Fund"
    date := "0001-01-01"
    totalAssets := 1250000
    totalLiabilities := 50000
    netAssets := 1200000
    unitsOutstanding := 10000
    navPerUnit := 120
    officialNav := 120
    assetBreakdown := []
    liabilityBreakdown := [] }

/-- A record with whole-number fields only (no quotient literals), used
to instantiate the tolerance equivalence. -/
def navRecord2 : FinancialRecord :=
  { fundName := "F"
    date := "D"
    totalAssets := 100
    totalLiabilities := 10
    netAssets := 90
    unitsOutstanding := 3
    navPerUnit := 30
    officialNav := 50
    assetBreakdown := []
    liabilityBreakdown := [] }

lemma keepNum_pos {g : List Char} {v : ℚ} (h : keepNum g = some v) : 0 < v := by
  unfold keepNum at h
  cases hp : parseNum g with
  | none => rw [hp] at h; simp at h
  | some w =>
    rw [hp] at h
    simp only at h
    split at h
    · simp only [Option.some.injEq] at h
      rw [← h]
      assumption
    · simp at h

lemma scanNums_pos : ∀ (fuel : Nat) (cs : List Char) {v : ℚ}, v ∈ scanNums fuel cs → 0 < v := by
  intro fuel
  induction fuel with
  | zero => intro cs v h; simp [scanNums] at h
  | succ n ih =>
    intro cs v h
    cases cs with
    | nil => simp [scanNums] at h
    | cons c t =>
      unfold scanNums at h
      split at h
      · split at h
        next w hk =>
          rcases List.mem_cons.mp h with h1 | h2
          · rw [h1]; exact keepNum_pos hk
          · exact ih _ h2
        next => exact ih _ h
      · exact ih _ h

lemma length_insertDesc (x : ℚ) (l : List ℚ) : (insertDesc x l).length = l.length + 1 := by
  induction l with
  | nil => rfl
  | cons y t ih =>
    unfold insertDesc
    split_ifs <;> simp [ih]

lemma length_sortDesc (l : List ℚ) : (sortDesc l).length = l.length := by
  induction l with
  | nil => rfl
  | cons y t ih =>
    show (insertDesc y (sortDesc t)).length = _
    rw [length_insertDesc, ih]
    rfl

lemma mem_insertDesc {x y : ℚ} {l : List ℚ} : y ∈ insertDesc x l ↔ y = x ∨ y ∈ l := by
  induction l with
  | nil => simp [insertDesc]
  | cons z t ih =>
    unfold insertDesc
    split_ifs
    · simp [List.mem_cons]
    · simp only [List.mem_cons, ih]
      tauto

lemma mem_sortDesc {y : ℚ} {l : List ℚ} : y ∈ sortDesc l ↔ y ∈ l := by
  induction l with
  | nil => simp [sortDesc]
  | cons z t ih =>
    show y ∈ insertDesc z (sortDesc t) ↔ _
    rw [mem_insertDesc, ih]
    simp [List.mem_cons]

lemma getD_mem {α : Type} (d : α) :
    ∀ (l : List α) (i : Nat), i < l.length → l.getD i d ∈ l := by
  intro l
  induction l with
  | nil => intro i h; simp at h
  | cons a t ih =>
    intro i h
    cases i with
    | zero => simp [List.getD]
    | succ j =>
      simp only [List.getD_cons_succ]
      exact List.mem_cons_of_mem _ (ih j (by simpa using h))

lemma sorted_getD_pos (text : String) (i : Nat) (h : i < (harvestNumbers text).length) :
    0 < (sortDesc (harvestNumbers text)).getD i 0 := by
  have hl : (sortDesc (harvestNumbers text)).length = (harvestNumbers text).length :=
    length_sortDesc _
  have hm : (sortDesc (harvestNumbers text)).getD i 0 ∈ sortDesc (harvestNumbers text) :=
    getD_mem 0 _ i (by rw [hl]; exact h)
  exact scanNums_pos _ _ (mem_sortDesc.mp hm)

lemma jsOr_pos {v : ℚ} (h : 0 < v) (d : ℚ) : jsOr v d = v := by
  unfold jsOr
  rw [if_neg (ne_of_gt h)]

lemma validate_errors_eq (r : FinancialRecord) :
    (validateNAVData r).errors =
      (if r.fundName = "" then ["Fund name not found"] else []) ++
        (if r.date = "" then ["Date not found"] else []) ++
        (if r.totalAssets ≤ 0 then ["Total assets must be greater than 0"] else []) ++
        (if r.unitsOutstanding ≤ 0 then
          ["Units outstanding must be greater than 0"] else []) := rfl

lemma validate_warnings_eq (r : FinancialRecord) :
    (validateNAVData r).warnings =
      if |r.netAssets / r.unitsOutstanding - r.officialNav| / r.officialNav * 100 > 1 / 100
      then [|r.netAssets / r.unitsOutstanding - r.officialNav| / r.officialNav * 100]
      else [] := rfl

lemma validate_isValid_eq (r : FinancialRecord) :
    (validateNAVData r).isValid = (validateNAVData r).errors.isEmpty := rfl

lemma validate_confidence_eq (r : FinancialRecord) :
    (validateNAVData r).confidence =
      max 0 (100 - ((validateNAVData r).errors.length : ℤ) * 20 -
        ((validateNAVData r).warnings.length : ℤ) * 5) := rfl

lemma errors_len_le (r : FinancialRecord) : (validateNAVData r).errors.length ≤ 4 := by
  rw [validate_errors_eq]
  split_ifs <;> simp

lemma warnings_len_le (r : FinancialRecord) : (validateNAVData r).warnings.length ≤ 1 := by
  rw [validate_warnings_eq]
  split_ifs <;> simp

lemma warnings_nil_of_zero (r : FinancialRecord) (h1 : r.netAssets = 0)
    (h2 : r.officialNav = 0) : (validateNAVData r).warnings = [] := by
  rw [validate_warnings_eq]
  simp [h1, h2]

lemma errors_len_le_two (r : FinancialRecord) (ha : 0 < r.totalAssets)
    (hu : 0 < r.unitsOutstanding) : (validateNAVData r).errors.length ≤ 2 := by
  rw [validate_errors_eq, if_neg (not_le.mpr ha), if_neg (not_le.mpr hu)]
  split_ifs <;> simp

lemma conf_ge (r : FinancialRecord) (b : ℤ)
    (h : b ≤ 100 - ((validateNAVData r).errors.length : ℤ) * 20 -
      ((validateNAVData r).warnings.length : ℤ) * 5) :
    b ≤ (validateNAVData r).confidence := by
  rw [validate_confidence_eq]
  exact le_trans h (le_max_right _ _)

lemma extractNAVData_ge (text : String) (h : 4 ≤ (harvestNumbers text).length) :
    extractNAVData text =
      { fundName := extractFundName text
        date := extractDate text
        totalAssets := (sortDesc (harvestNumbers text)).getD 0 0
        totalLiabilities := jsOr ((sortDesc (harvestNumbers text)).getD 1 0) 0
        netAssets := (sortDesc (harvestNumbers text)).getD 0 0 -
          jsOr ((sortDesc (harvestNumbers text)).getD 1 0) 0
        unitsOutstanding := jsOr ((sortDesc (harvestNumbers text)).getD 2 0) 1
        navPerUnit := ((sortDesc (harvestNumbers text)).getD 0 0 -
          jsOr ((sortDesc (harvestNumbers text)).getD 1 0) 0) /
            jsOr ((sortDesc (harvestNumbers text)).getD 2 0) 1
        officialNav := jsOr ((sortDesc (harvestNumbers text)).getD 3 0)
          (((sortDesc (harvestNumbers text)).getD 0 0 -
            jsOr ((sortDesc (harvestNumbers text)).getD 1 0) 0) /
              jsOr ((sortDesc (harvestNumbers text)).getD 2 0) 1)
        assetBreakdown := extractBreakdown text "asset"
        liabilityBreakdown := extractBreakdown text "liability" } := by
  have h2 : 4 ≤ (sortDesc (harvestNumbers text)).length := by
    rw [length_sortDesc]; exact h
  simp only [extractNAVData]
  rw [if_pos h2]

lemma extractNAVData_lt (text : String) (h : (harvestNumbers text).length < 4) :
    extractNAVData text =
      { fundName := extractFundName text
        date := extractDate text
        totalAssets := 0
        totalLiabilities := 0
        netAssets := 0
        unitsOutstanding := 0
        navPerUnit := 0
        officialNav := 0
        assetBreakdown := extractBreakdown text "asset"
        liabilityBreakdown := extractBreakdown text "liability" } := by
  have h2 : ¬ 4 ≤ (sortDesc (harvestNumbers text)).length := by
    rw [length_sortDesc]; omega
  simp only [extractNAVData]
  rw [if_neg h2]

lemma extract_empty_eq : extractNAVData "" = sentinelRecord := by
  have hlt : (harvestNumbers "").length < 4 := by decide
  rw [extractNAVData_lt "" hlt]
  rw [(by decide : extractFundName "" = ""), (by decide : extractDate "" = ""),
    (by decide : extractBreakdown "" "asset" = []),
    (by decide : extractBreakdown "" "liability" = [])]
  rfl

lemma sentinel_errors_eq :
    (validateNAVData sentinelRecord).errors =
      ["Fund name not found", "Date not found", "Total assets must be greater than 0",
        "Units outstanding must be greater than 0"] := by
  rw [validate_errors_eq]
  rw [if_pos (by decide : sentinelRecord.fundName = ""),
    if_pos (by decide : sentinelRecord.date = ""),
    if_pos (by decide : sentinelRecord.totalAssets ≤ 0),
    if_pos (by decide : sentinelRecord.unitsOutstanding ≤ 0)]
  rfl

lemma sentinel_warnings_eq : (validateNAVData sentinelRecord).warnings = [] :=
  warnings_nil_of_zero _ rfl rfl

lemma sentinel_isValid_false : (validateNAVData sentinelRecord).isValid = false := by
  rw [validate_isValid_eq, sentinel_errors_eq]
  rfl

lemma sentinel_conf_eq : (validateNAVData sentinelRecord).confidence = 20 := by
  rw [validate_confidence_eq, sentinel_errors_eq, sentinel_warnings_eq]
  norm_num

lemma nav1_errors_eq : (validateNAVData navRecord1).errors = [] := by
  rw [validate_errors_eq]
  rw [if_neg (by decide : ¬ navRecord1.fundName = ""),
    if_neg (by decide : ¬ navRecord1.date = ""),
    if_neg (by decide : ¬ navRecord1.totalAssets ≤ 0),
    if_neg (by decide : ¬ navRecord1.unitsOutstanding ≤ 0)]
  rfl

lemma nav1_warnings_eq : (validateNAVData navRecord1).warnings = [100 / 241] := by
  rw [validate_warnings_eq]
  have h0 : navRecord1.netAssets / navRecord1.unitsOutstanding - navRecord1.officialNav =
      -(1 / 2) := by
    norm_num [navRecord1]
  rw [h0, abs_neg, abs_of_nonneg (by norm_num : (0 : ℚ) ≤ 1 / 2)]
  have hc : (1 : ℚ) / 2 / navRecord1.officialNav * 100 > 1 / 100 := by
    norm_num [navRecord1]
  rw [if_pos hc]
  have hv : (1 : ℚ) / 2 / navRecord1.officialNav * 100 = 100 / 241 := by
    norm_num [navRecord1]
  rw [hv]

lemma nav1_conf_eq : (validateNAVData navRecord1).confidence = 95 := by
  rw [validate_confidence_eq, nav1_errors_eq, nav1_warnings_eq]
  norm_num

lemma demo4_extract_eq : extractNAVData demo4Text = demo4Record := by
  have h4 : 4 ≤ (harvestNumbers demo4Text).length := by decide
  have hrec := extractNAVData_ge demo4Text h4
  rw [(by decide : (sortDesc (harvestNumbers demo4Text)).getD 0 0 = 1250000),
    (by decide : (sortDesc (harvestNumbers demo4Text)).getD 1 0 = 50000),
    (by decide : (sortDesc (harvestNumbers demo4Text)).getD 2 0 = 10000),
    (by decide : (sortDesc (harvestNumbers demo4Text)).getD 3 0 = 120),
    (by decide : jsOr (50000 : ℚ) 0 = 50000),
    (by decide : jsOr (10000 : ℚ) 1 = 10000)] at hrec
  rw [(by norm_num : (1250000 : ℚ) - 50000 = 1200000)] at hrec
  rw [(by norm_num : (1200000 : ℚ) / 10000 = 120)] at hrec
  rw [(by decide : jsOr (120 : ℚ) 120 = 120)] at hrec
  rw [(by decide : extractFundName demo4Text = "Test Fund"),
    (by decide : extractDate demo4Text = "0001-01-01"),
    (by decide : extractBreakdown demo4Text "asset" = []),
    (by decide : extractBreakdown demo4Text "liability" = [])] at hrec
  exact hrec

lemma demo4_errors_eq : (validateNAVData demo4Record).errors = [] := by
  rw [validate_errors_eq]
  rw [if_neg (by decide : ¬ demo4Record.fundName = ""),
    if_neg (by decide : ¬ demo4Record.date = ""),
    if_neg (by decide : ¬ demo4Record.totalAssets ≤ 0),
    if_neg (by decide : ¬ demo4Record.unitsOutstanding ≤ 0)]
  rfl

lemma demo4_warnings_eq : (validateNAVData demo4Record).warnings = [] := by
  rw [validate_warnings_eq]
  have h0 : demo4Record.netAssets / demo4Record.unitsOutstanding - demo4Record.officialNav =
      0 := by
    norm_num [demo4Record]
  rw [h0, abs_zero]
  rw [if_neg]
  norm_num [demo4Record]

lemma demo4_conf_eq : (validateNAVData demo4Record).confidence = 100 := by
  rw [validate_confidence_eq, demo4_errors_eq, demo4_warnings_eq]
  norm_num

/-- C1: `validate` appends a consistency warning iff the absolute
percentage difference between `netAssets / unitsOutstanding` and
`officialNav` exceeds the 0.01% tolerance (stated where that percentage
is well defined, i.e. for nonzero units and positive official NAV); and
on the canonical record with `officialNav = 120.5` it emits exactly the
one warning whose cited percentage is `(0.5 / 120.5) * 100 = 100/241`
(rendered `0.4149%` by `toFixed(4)`), with no errors and
`confidence = 95`. -/
theorem validate_warning_iff_tolerance :
    (∀ r : FinancialRecord, r.unitsOutstanding ≠ 0 → 0 < r.officialNav →
      ((validateNAVData r).warnings ≠ [] ↔
        |r.netAssets / r.unitsOutstanding - r.officialNav| / r.officialNav * 100 > 1 / 100)) ∧
    (validateNAVData navRecord1).warnings = [100 / 241] ∧
    (validateNAVData navRecord1).errors = [] ∧
    (validateNAVData navRecord1).confidence = 95 ∧
    (100 / 241 : ℚ) = 1 / 2 / (241 / 2) * 100 := by
  refine ⟨?_, nav1_warnings_eq, nav1_errors_eq, nav1_conf_eq, by norm_num⟩
  intro r hu ho
  rw [validate_warnings_eq]
  split_ifs with h
  · simpa using h
  · simpa using h

/-- Witness for C1: the general tolerance equivalence applied to a
concrete record. -/
theorem validate_warning_iff_tolerance_witness :
    (validateNAVData navRecord2).warnings ≠ [] ↔
      |navRecord2.netAssets / navRecord2.unitsOutstanding - navRecord2.officialNav| /
          navRecord2.officialNav * 100 > 1 / 100 :=
  validate_warning_iff_tolerance.1 navRecord2 (by decide) (by decide)

/-- C2: for every record, `confidence = max 0 (100 - 20*|errors| -
5*|warnings|)` and lies in `[0, 100]`. -/
theorem validate_confidence_formula (r : FinancialRecord) :
    (validateNAVData r).confidence =
      max 0 (100 - 20 * ((validateNAVData r).errors.length : ℤ) -
        5 * ((validateNAVData r).warnings.length : ℤ)) ∧
    0 ≤ (validateNAVData r).confidence ∧ (validateNAVData r).confidence ≤ 100 := by
  have hc := validate_confidence_eq r
  refine ⟨by rw [hc]; congr 1; ring, ?_, ?_⟩
  · rw [hc]; exact le_max_left _ _
  · rw [hc]
    exact max_le (by norm_num) (by omega)

/-- Witness for C2 at a concrete record. -/
theorem validate_confidence_formula_witness :
    (validateNAVData navRecord1).confidence =
      max 0 (100 - 20 * ((validateNAVData navRecord1).errors.length : ℤ) -
        5 * ((validateNAVData navRecord1).warnings.length : ℤ)) ∧
    0 ≤ (validateNAVData navRecord1).confidence ∧
    (validateNAVData navRecord1).confidence ≤ 100 :=
  validate_confidence_formula navRecord1

/-- Counterexample to C3 as stated: on the all-sentinel record (which is
exactly what extraction yields on empty input) validation produces
`isValid = false` but `confidence = 20`, not `0` — four required-field
errors cost 80 points and the consistency warning does not fire on
all-zero fields. -/
theorem sentinel_confidence_counterexample :
    extractNAVData "" = sentinelRecord ∧
    (validateNAVData sentinelRecord).isValid = false ∧
    (validateNAVData sentinelRecord).confidence = 20 ∧
    (validateNAVData sentinelRecord).confidence ≠ 0 :=
  ⟨extract_empty_eq, sentinel_isValid_false, sentinel_conf_eq, by rw [sentinel_conf_eq]; decide⟩

/-- C3 (amended): extraction is total — every input string yields a
record — and the worst case of the composed pipeline is the all-sentinel
record with `isValid = false` and `confidence = 20` (never lower, in
particular never `0`). -/
theorem extract_validate_worst_case :
    (∀ text : String, 20 ≤ (validateNAVData (extractNAVData text)).confidence) ∧
    (validateNAVData (extractNAVData "")).isValid = false ∧
    (validateNAVData (extractNAVData "")).confidence = 20 := by
  refine ⟨?_, by rw [extract_empty_eq]; exact sentinel_isValid_false,
    by rw [extract_empty_eq]; exact sentinel_conf_eq⟩
  intro text
  by_cases h4 : 4 ≤ (harvestNumbers text).length
  · have hrec := extractNAVData_ge text h4
    have ha : 0 < (extractNAVData text).totalAssets := by
      rw [hrec]; exact sorted_getD_pos text 0 (by omega)
    have hu : 0 < (extractNAVData text).unitsOutstanding := by
      rw [hrec]
      show 0 < jsOr ((sortDesc (harvestNumbers text)).getD 2 0) 1
      rw [jsOr_pos (sorted_getD_pos text 2 (by omega))]
      exact sorted_getD_pos text 2 (by omega)
    have he := errors_len_le_two _ ha hu
    have hw := warnings_len_le (extractNAVData text)
    exact conf_ge _ 20 (by omega)
  · have hrec := extractNAVData_lt text (by omega)
    have hz1 : (extractNAVData text).netAssets = 0 := by rw [hrec]
    have hz2 : (extractNAVData text).officialNav = 0 := by rw [hrec]
    have hw : (validateNAVData (extractNAVData text)).warnings.length = 0 := by
      rw [warnings_nil_of_zero _ hz1 hz2]; rfl
    have he := errors_len_le (extractNAVData text)
    exact conf_ge _ 20 (by omega)

/-- Witness for C3 (amended): the worst-case bound applied to a concrete
input. -/
theorem extract_validate_worst_case_witness :
    20 ≤ (validateNAVData (extractNAVData "x")).confidence :=
  extract_validate_worst_case.1 "x"

/-- C4: whenever at least four positive monetary tokens are harvested,
extraction assigns `totalAssets`/`totalLiabilities`/`unitsOutstanding`/
`officialNav` to the first four entries of the descending sort,
`netAssets = totalAssets - totalLiabilities` and
`navPerUnit = netAssets / unitsOutstanding`; on the canonical document
text this yields `1250000 / 50000 / 1200000 / 10000 / 120 / 120`, zero
warnings and `confidence = 100`. -/
theorem extract_sorted_assignment :
    (∀ text : String, 4 ≤ (harvestNumbers text).length →
      (extractNAVData text).totalAssets = (sortDesc (harvestNumbers text)).getD 0 0 ∧
      (extractNAVData text).totalLiabilities = (sortDesc (harvestNumbers text)).getD 1 0 ∧
      (extractNAVData text).netAssets =
        (extractNAVData text).totalAssets - (extractNAVData text).totalLiabilities ∧
      (extractNAVData text).unitsOutstanding = (sortDesc (harvestNumbers text)).getD 2 0 ∧
      (extractNAVData text).navPerUnit =
        (extractNAVData text).netAssets / (extractNAVData text).unitsOutstanding ∧
      (extractNAVData text).officialNav = (sortDesc (harvestNumbers text)).getD 3 0) ∧
    ((extractNAVData demo4Text).totalAssets = 1250000 ∧
      (extractNAVData demo4Text).totalLiabilities = 50000 ∧
      (extractNAVData demo4Text).netAssets = 1200000 ∧
      (extractNAVData demo4Text).unitsOutstanding = 10000 ∧
      (extractNAVData demo4Text).navPerUnit = 120 ∧
      (extractNAVData demo4Text).officialNav = 120 ∧
      (validateNAVData (extractNAVData demo4Text)).warnings = [] ∧
      (validateNAVData (extractNAVData demo4Text)).confidence = 100) := by
  constructor
  · intro text h4
    have hrec := extractNAVData_ge text h4
    have h1 := sorted_getD_pos text 1 (by omega)
    have h2 := sorted_getD_pos text 2 (by omega)
    have h3 := sorted_getD_pos text 3 (by omega)
    rw [hrec]
    exact ⟨rfl, jsOr_pos h1 _, rfl, jsOr_pos h2 _, rfl, jsOr_pos h3 _⟩
  · rw [demo4_extract_eq]
    exact ⟨rfl, rfl, rfl, rfl, rfl, rfl, demo4_warnings_eq, demo4_conf_eq⟩

/-- Witness for C4: the general assignment applied to the canonical
document text. -/
theorem extract_sorted_assignment_witness :
    (extractNAVData demo4Text).totalAssets = (sortDesc (harvestNumbers demo4Text)).getD 0 0 ∧
    (extractNAVData demo4Text).totalLiabilities =
      (sortDesc (harvestNumbers demo4Text)).getD 1 0 ∧
    (extractNAVData demo4Text).netAssets =
      (extractNAVData demo4Text).totalAssets - (extractNAVData demo4Text).totalLiabilities ∧
    (extractNAVData demo4Text).unitsOutstanding =
      (sortDesc (harvestNumbers demo4Text)).getD 2 0 ∧
    (extractNAVData demo4Text).navPerUnit =
      (extractNAVData demo4Text).netAssets / (extractNAVData demo4Text).unitsOutstanding ∧
    (extractNAVData demo4Text).officialNav = (sortDesc (harvestNumbers demo4Text)).getD 3 0 :=
  extract_sorted_assignment.1 demo4Text (by decide)

/-- C5: with fewer than four positive monetary tokens, the five
heuristically assigned numeric fields all stay at the zero sentinel. -/
theorem extract_below_threshold_sentinel :
    ∀ text : String, (harvestNumbers text).length < 4 →
      (extractNAVData text).totalAssets = 0 ∧
      (extractNAVData text).totalLiabilities = 0 ∧
      (extractNAVData text).unitsOutstanding = 0 ∧
      (extractNAVData text).navPerUnit = 0 ∧
      (extractNAVData text).officialNav = 0 := by
  intro text h
  rw [extractNAVData_lt text h]
  exact ⟨rfl, rfl, rfl, rfl, rfl⟩

/-- Witness for C5 at the empty input. -/
theorem extract_below_threshold_sentinel_witness :
    (extractNAVData "").totalAssets = 0 ∧
    (extractNAVData "").totalLiabilities = 0 ∧
    (extractNAVData "").unitsOutstanding = 0 ∧
    (extractNAVData "").navPerUnit = 0 ∧
    (extractNAVData "").officialNav = 0 :=
  extract_below_threshold_sentinel "" (by decide)

/-- C6: `isValid` is true exactly when `errors` is empty, and is fully
determined by the four required-field checks — warnings never enter. -/
theorem validate_isValid_iff_errors_empty (r : FinancialRecord) :
    ((validateNAVData r).isValid = true ↔ (validateNAVData r).errors = []) ∧
    ((validateNAVData r).isValid = true ↔
      (r.fundName ≠ "" ∧ r.date ≠ "" ∧ 0 < r.totalAssets ∧ 0 < r.unitsOutstanding)) := by
  constructor
  · rw [validate_isValid_eq]
    simp [List.isEmpty_iff]
  · rw [validate_isValid_eq, validate_errors_eq]
    split_ifs <;> simp_all [not_le]

/-- Witness for C6 at a concrete record. -/
theorem validate_isValid_iff_errors_empty_witness :
    ((validateNAVData sentinelRecord).isValid = true ↔
      (validateNAVData sentinelRecord).errors = []) ∧
    ((validateNAVData sentinelRecord).isValid = true ↔
      (sentinelRecord.fundName ≠ "" ∧ sentinelRecord.date ≠ "" ∧
        0 < sentinelRecord.totalAssets ∧ 0 < sentinelRecord.unitsOutstanding)) :=
  validate_isValid_iff_errors_empty sentinelRecord

/-- Counterexample to C7 as stated: an in-section line containing
`total` is encountered (`total investments`), yet collection does not
stop there — because the line also contains the section keyword
`investments` it merely re-triggers the section, and the entry from the
later `Cash 5` line is still emitted. -/
theorem breakdown_keyword_total_counterexample :
    isStopLine "total investments".data = true ∧
    extractBreakdown "holdings\ntotal investments\nCash 5" "asset" =
      [{ description := "Cash", amount := 5 }] := by
  decide

/-- C7 (amended): once in-section scanning encounters a line containing
`total`/`summary` that does not itself contain a section keyword,
collection stops entirely and no later line contributes; and if no line
contains `total`/`summary` at all, the in-section scan consumes every
line, emitting each non-keyword line's description/amount pair. -/
theorem breakdown_stop_scan_semantics :
    (∀ (kws : List (List Char)) (line : List Char) (rest : List (List Char)),
      isTrigger kws line = false → isStopLine line = true →
        breakdownLoop kws (line :: rest) true = breakdownLoop kws [line] true) ∧
    (∀ (kws : List (List Char)) (lines : List (List Char)),
      (∀ l ∈ lines, isStopLine l = false) →
        breakdownLoop kws lines true =
          lines.filterMap fun l => if isTrigger kws l then none else emitLine l) := by
  constructor
  · intro kws line rest h1 h2
    simp [breakdownLoop, h1, h2]
  · intro kws lines
    induction lines with
    | nil => intro h; simp [breakdownLoop]
    | cons l t ih =>
      intro h
      have hl := h l (List.mem_cons_self l t)
      have ht : ∀ x ∈ t, isStopLine x = false := fun x hx => h x (List.mem_cons_of_mem _ hx)
      by_cases htr : isTrigger kws l = true
      · simp [breakdownLoop, htr, List.filterMap_cons, ih ht]
      · have htr2 : isTrigger kws l = false := by
          revert htr; cases isTrigger kws l <;> simp
        cases he : emitLine l with
        | none => simp [breakdownLoop, htr2, hl, List.filterMap_cons, he, ih ht]
        | some e => simp [breakdownLoop, htr2, hl, List.filterMap_cons, he, ih ht]

/-- Witness for C7 (amended): the stop rule applied to a concrete
keyword-free stop line. -/
theorem breakdown_stop_scan_semantics_witness :
    breakdownLoop [[ 'x' ]] ["total".data, "y 5".data] true =
      breakdownLoop [[ 'x' ]] ["total".data] true :=
  breakdown_stop_scan_semantics.1 [[ 'x' ]] "total".data ["y 5".data] (by decide) (by decide)

/-- C8 does not hold for every text containing the labelled line: an
earlier match of the same label pattern wins — here `fund name: Zed`
precedes the `Fund Name: Acme Growth Fund` line (and `BIG ALPHA FUND`
matches the generic heuristic), yet extraction returns `Zed`. -/
theorem fund_label_leftmost_counterexample :
    "Fund Name: Acme Growth Fund".data ∈
      splitNl ("fund name: Zed\nBIG ALPHA FUND\nFund Name: Acme Growth Fund").data ∧
    extractFundName "fund name: Zed\nBIG ALPHA FUND\nFund Name: Acme Growth Fund" = "Zed" ∧
    ("Zed" : String) ≠ "Acme Growth Fund" := by
  decide

/-- C8 (amended): the three fund-name patterns are tried in a fixed
order (label, capitalized+fund, capitalized+trust) and the first pattern
that matches anywhere wins with its leftmost capture trimmed; a text
whose only label-pattern match is the `Fund Name: Acme Growth Fund` line
extracts `Acme Growth Fund` even though another line matches the generic
capitalized-fund heuristic. -/
theorem fund_name_pattern_order :
    (∀ (text : String) (cap : List Char), findFundLabel text.data = some cap →
      extractFundName text = String.mk (trimChars cap)) ∧
    (∀ (text : String) (cap : List Char), findFundLabel text.data = none →
      findHeur "fund".data text.data = some cap →
      extractFundName text = String.mk (trimChars cap)) ∧
    (∀ (text : String) (cap : List Char), findFundLabel text.data = none →
      findHeur "fund".data text.data = none → findHeur "trust".data text.data = some cap →
      extractFundName text = String.mk (trimChars cap)) ∧
    extractFundName "BIG ALPHA FUND\nFund Name: Acme Growth Fund" = "Acme Growth Fund" ∧
    findHeur "fund".data ("BIG ALPHA FUND\nFund Name: Acme Growth Fund").data ≠ none := by
  refine ⟨?_, ?_, ?_, by decide, by decide⟩
  · intro text cap h
    simp [extractFundName, h]
  · intro text cap h1 h2
    simp [extractFundName, h1, h2]
  · intro text cap h1 h2 h3
    simp [extractFundName, h1, h2, h3]

/-- Witness for C8 (amended): the label-pattern clause applied to a
concrete labelled text. -/
theorem fund_name_pattern_order_witness :
    extractFundName "fund name: A" = String.mk (trimChars "A".data) :=
  fund_name_pattern_order.1 "fund name: A" "A".data (by decide)

/-- C9: validation produces at most 4 errors and at most 1 warning, so
confidence is always at least 15 and in particular never 0. -/
theorem validate_error_warning_bounds (r : FinancialRecord) :
    (validateNAVData r).errors.length ≤ 4 ∧ (validateNAVData r).warnings.length ≤ 1 ∧
    15 ≤ (validateNAVData r).confidence ∧ (validateNAVData r).confidence ≠ 0 := by
  have he := errors_len_le r
  have hw := warnings_len_le r
  have h15 : (15 : ℤ) ≤ (validateNAVData r).confidence := conf_ge r 15 (by omega)
  exact ⟨he, hw, h15, by omega⟩

/-- Witness for C9 at a concrete record. -/
theorem validate_error_warning_bounds_witness :
    (validateNAVData sentinelRecord).errors.length ≤ 4 ∧
    (validateNAVData sentinelRecord).warnings.length ≤ 1 ∧
    15 ≤ (validateNAVData sentinelRecord).confidence ∧
    (validateNAVData sentinelRecord).confidence ≠ 0 :=
  validate_error_warning_bounds sentinelRecord

/-- Counterexample to C10 as stated: the first in-section line containing
`total` (`total investments 5`) does carry a monetary token and a
non-empty description — `emitLine` would produce an entry — yet it is
not emitted and does not stop collection, because its section keyword
`investments` routes it through the trigger branch; only the later
`Cash 7` line is emitted. -/
theorem breakdown_stop_line_trigger_counterexample :
    isStopLine "total investments 5".data = true ∧
    emitLine "total investments 5".data =
      some { description := "total investments", amount := 5 } ∧
    extractBreakdown "holdings\ntotal investments 5\nCash 7" "asset" =
      [{ description := "Cash", amount := 7 }] := by
  decide

/-- C10 (amended): an in-section `total`/`summary` line that does not
contain a section keyword is itself processed for emission — it becomes
the final entry exactly when it has a parseable amount and a non-empty
stripped description — before collection stops; a keyword line, by
contrast, is always consumed without being emitted, re-entering section
mode. -/
theorem breakdown_stop_line_emission :
    (∀ (kws : List (List Char)) (line : List Char) (rest : List (List Char)),
      isTrigger kws line = false → isStopLine line = true →
        breakdownLoop kws (line :: rest) true = (emitLine line).toList) ∧
    (∀ (kws : List (List Char)) (line : List Char) (rest : List (List Char)) (b : Bool),
      isTrigger kws line = true →
        breakdownLoop kws (line :: rest) b = breakdownLoop kws rest true) := by
  constructor
  · intro kws line rest h1 h2
    cases he : emitLine line with
    | none => simp [breakdownLoop, h1, h2, he, Option.toList]
    | some e => simp [breakdownLoop, h1, h2, he, Option.toList]
  · intro kws line rest b h
    simp [breakdownLoop, h]

/-- Witness for C10 (amended): the stop-line emission rule applied to a
concrete keyword-free stop line carrying an amount. -/
theorem breakdown_stop_line_emission_witness :
    breakdownLoop [[ 'x' ]] ["summary 7".data, "z 5".data] true =
      (emitLine "summary 7".data).toList :=
  breakdown_stop_line_emission.1 [[ 'x' ]] "summary 7".data ["z 5".data] (by decide) (by decide)

end DuckGoose
